import Mathlib

/-!
Shallow embedding of `src-tauri/src/whisper.rs` from utm3/pothook.

The module orchestrates an offline speech-to-text run: it reads run
parameters from a process-wide mutex-protected `STORE`, loads 16-bit PCM
samples from a WAV file, configures the whisper engine, and registers
`whisper_callback` as the per-segment callback.  External collaborators
(the hound WAV reader, the whisper engine, the tauri event bus) are
modelled as oracles in an `Env` record; the control flow, the messages,
the event emissions and the ownership operations on the boxed
`tauri::AppHandle` user-data pointer are translated from the source.
-/

/-- Event status of the `WhisperPayload` sent over the `"whisper"` channel. -/
inductive Status where
  | start
  | data
  | error
deriving DecidableEq, Repr

/-- `WhisperPayload { status, message }` from `whisper.rs`. -/
structure WhisperPayload where
  status : Status
  message : String
deriving DecidableEq, Repr

/-- A segment stored by the Store: millisecond bounds and text. -/
structure Segment where
  start_ms : Int
  end_ms : Int
  text : String
deriving DecidableEq, Repr

/-- The shared configuration store.  `whisper.rs` reads these fields through
the accessors `get_path_wav`, `get_path_model`, `get_lang`, `get_translate`,
`get_ms_offset`, `get_ms_duration`; `segments` is the ordered sequence of
segments accumulated by `push_data`. -/
structure Store where
  path_wav : String
  path_model : String
  lang : Option String
  translate : Bool
  ms_offset : Int
  ms_duration : Int
  segments : List Segment
deriving DecidableEq, Repr

/-- Constructor for an error payload, mirroring `emit_err` in `whisper.rs`
(the emission itself is best-effort: its result is discarded). -/
def emit_err (msg : String) : WhisperPayload :=
  { status := Status.error, message := msg }

/-- The payload emitted just before `state.full` is invoked. -/
def startPayload : WhisperPayload :=
  { status := Status.start, message := "初期化が完了しました。文字起こしを開始します。" }

/-- Modelled from the spec: `Store::push_data` lives in
`src-tauri/src/store.rs`, which is not among the provided sources.  Per spec
section 4.2 the mutator appends a Segment and simultaneously notifies the
Event Emitter of that segment's availability (a `data` event), so that no
caller can add a Segment without also notifying listeners. -/
def Store.push_data (store : Store) (start_ms end_ms : Int) (text : String) :
    Store × WhisperPayload :=
  ({ store with segments := store.segments ++ [⟨start_ms, end_ms, text⟩] },
   { status := Status.data, message := text })

/-- The raw text payload returned by
`whisper_full_get_segment_text_from_state`: a null pointer, a non-null byte
sequence that is not valid UTF-8 (so `CStr::to_str` fails), or valid text. -/
inductive TextPayload where
  | null
  | invalid
  | valid (s : String)
deriving DecidableEq, Repr

/-- Engine-native data of the most recently completed segment, as read by the
callback: the raw text pointer and the `t0`/`t1` timestamps from
`whisper_full_get_segment_t0_from_state` / `_t1_from_state`. -/
structure SegmentData where
  text : TextPayload
  t0 : Int
  t1 : Int
deriving DecidableEq, Repr

/-- Observable outcome of one `whisper_callback` invocation:
the events delivered to the host, the Store afterwards, whether the
invocation itself released (dropped) the boxed `AppHandle` recovered from the
user-data pointer, and whether the invocation panicked. -/
structure CallbackResult where
  events : List WhisperPayload
  store : Store
  releasedHandle : Bool
  panicked : Bool
deriving DecidableEq, Repr

/-- `whisper_callback` from `whisper.rs`.  Control flow translated branch by
branch from the source:
* null text pointer: plain `return` (no event, no store access, no
  handle operation);
* `CStr::to_str` failure: `Box::from_raw(app)` reconstructs the boxed
  `AppHandle`, `emit_err` is called, and the `return` drops the box,
  releasing the handle inside the callback;
* valid text: `Box::from_raw(app)`, then `STORE.lock().unwrap()` —
  a panic when the lock is poisoned — then `push_data` with the timestamps
  multiplied by 10, then `Box::into_raw(app_handle)` gives ownership back
  without releasing. -/
def whisper_callback (seg : SegmentData) (store : Store) (poisoned : Bool) :
    CallbackResult :=
  match seg.text with
  | TextPayload.null =>
      { events := [], store := store, releasedHandle := false, panicked := false }
  | TextPayload.invalid =>
      { events := [emit_err "Text segment could not be converted to string."],
        store := store, releasedHandle := true, panicked := false }
  | TextPayload.valid s =>
      if poisoned then
        { events := [], store := store, releasedHandle := false, panicked := true }
      else
        let pushed := store.push_data (seg.t0 * 10) (seg.t1 * 10) s
        { events := [pushed.2], store := pushed.1,
          releasedHandle := false, panicked := false }

/-- Normalization of one 16-bit sample, from
`sample.map(|s| s as f32 / i16::MAX as f32)`.  Modelled in exact rational
arithmetic; `i16::MAX = 32767`.  (For every i16 input the exact quotient is
at distance at least 3.0e-5 from ±1 whenever it exceeds them, far beyond the
1.2e-7 spacing of f32 near 1, so the sign of every comparison with ±1 proved
below also holds for the rounded f32 value.) -/
def decodeSample (s : Int) : ℚ :=
  (s : ℚ) / 32767

/-- The sample-collection loop
`reader.samples::<i16>().map(...).collect::<Result<Vec<f32>, _>>()`:
each raw read either yields an i16 or fails; the first failure makes the
whole collection fail, and no partial buffer is produced. -/
def decodeSamples : List (Except Unit Int) → Except Unit (List ℚ)
  | [] => Except.ok []
  | Except.error e :: _ => Except.error e
  | Except.ok s :: rest => (decodeSamples rest).map (fun l => decodeSample s :: l)

/-- Decode parameters configured on `FullParams` in `run` (sampling strategy
greedy with `best_of = 1`; the remaining fields are set from the Store). -/
structure FullParams where
  best_of : Int
  language : Option String
  translate : Bool
  offset_ms : Int
  duration_ms : Int
  tdrz_enable : Bool
  suppress_non_speech_tokens : Bool
deriving DecidableEq, Repr

/-- `FullParams::new(SamplingStrategy::Greedy { best_of: 1 })` before any
setter runs.  The whisper-rs defaults of the unset fields are immaterial to
every claim; they are modelled as neutral values. -/
def initialParams : FullParams :=
  { best_of := 1, language := none, translate := false, offset_ms := 0,
    duration_ms := 0, tdrz_enable := false, suppress_non_speech_tokens := false }

/-- Oracle outcomes of the external collaborators during one `run`:
the global `STORE` contents and whether its lock is poisoned, whether
`hound::WavReader::open` succeeds, the raw sample reads, whether
`WhisperContext::new_with_params` succeeds, whether `context.create_state`
succeeds, whether the `start` `emit_all` succeeds, the segments the engine
finalizes during `state.full` (each triggering one callback invocation),
and whether `state.full` returns success. -/
structure Env where
  store : Store
  poisoned : Bool
  wavOpen : Bool
  samples : List (Except Unit Int)
  modelLoad : Bool
  stateInit : Bool
  startEmit : Bool
  engineSegments : List SegmentData
  decodeOk : Bool
deriving Repr

/-- Observable outcome of one `run`: the events delivered to the host in
order, the Store afterwards, the returned `Result<(), String>`, whether
`WhisperContext::new_with_params` was reached, whether `state.full` was
reached, whether any callback invocation released the boxed handle, whether
the boxed handle was released at end-of-run, and the configured decode
parameters. -/
structure RunResult where
  events : List WhisperPayload
  store : Store
  result : Except String Unit
  modelLoadAttempted : Bool
  decodeAttempted : Bool
  handleReleasedInCallback : Bool
  handleReleasedAtEnd : Bool
  params : FullParams
deriving Repr

/-- Folds `whisper_callback` over the segments the engine finalizes during
`state.full`, threading the Store; returns the emitted events, the final
Store, and whether any invocation released the boxed handle.  The lock is
not poisoned on this path (a poisoned lock aborts `run` before `full`). -/
def runCallbacks : List SegmentData → Store → List WhisperPayload × Store × Bool
  | [], store => ([], store, false)
  | seg :: rest, store =>
      let r := whisper_callback seg store false
      let tail := runCallbacks rest r.store
      (r.events ++ tail.1, tail.2.1, r.releasedHandle || tail.2.2)

/-- Error strings returned by `run`, verbatim from the source. -/
def msgPoison : String := "Mutex is poisoned"

/-- Audio-open failure message. -/
def msgAudioOpen : String := "指定されたwavファイルを開けませんでした"

/-- Sample-decode failure message. -/
def msgSamples : String := "Failed to read samples from WAV file"

/-- Model-load failure message. -/
def msgModel : String := "言語モデルの読み込みに失敗しました"

/-- State-init failure message. -/
def msgState : String := "Whisper Stateの初期化に失敗しました"

/-- Start-emission failure message. -/
def msgEmit : String := "イベントの送信に失敗しました"

/-- Decode failure message. -/
def msgDecode : String := "言語モデルの実行に失敗しました"

/-- `run` from `whisper.rs`, translated step by step.  The six explicit
arguments are carried exactly as in the source signature: the source body
never reads them — every run parameter is read from the locked `STORE`
(`config`).  Order of operations follows the source: lock the store
(poison aborts with `msgPoison`); open the WAV reader from
`config.get_path_wav()` (failure emits an error event and aborts); collect
the samples all-or-nothing (failure aborts with `msgSamples`, no event);
configure `params` from the store (language defaulting to `"ja"`) and attach
`whisper_callback` with a boxed clone of the app handle as user data; load
the model from `config.get_path_model()` (failure aborts with `msgModel`, no
event); create the decode state (failure emits an error event and aborts);
emit the `start` event (failure aborts with `msgEmit` before `full`); run
`state.full`, invoking the callback once per finalized segment (failure
emits an error event and aborts).  Nothing on any path releases the boxed
handle at end-of-run. -/
def run (path_wav path_model lang : String) (translate : Bool)
    (offset_ms duration_ms : Int) (env : Env) : RunResult :=
  if env.poisoned then
    { events := [], store := env.store, result := Except.error msgPoison,
      modelLoadAttempted := false, decodeAttempted := false,
      handleReleasedInCallback := false, handleReleasedAtEnd := false,
      params := initialParams }
  else
    let config := env.store
    if env.wavOpen = false then
      { events := [emit_err msgAudioOpen], store := config,
        result := Except.error msgAudioOpen,
        modelLoadAttempted := false, decodeAttempted := false,
        handleReleasedInCallback := false, handleReleasedAtEnd := false,
        params := initialParams }
    else
      match decodeSamples env.samples with
      | Except.error _ =>
          { events := [], store := config, result := Except.error msgSamples,
            modelLoadAttempted := false, decodeAttempted := false,
            handleReleasedInCallback := false, handleReleasedAtEnd := false,
            params := initialParams }
      | Except.ok _audio_data =>
          let params : FullParams :=
            { best_of := 1,
              language := some (config.lang.getD "ja"),
              translate := config.translate,
              offset_ms := config.ms_offset,
              duration_ms := config.ms_duration,
              tdrz_enable := true,
              suppress_non_speech_tokens := true }
          if env.modelLoad = false then
            { events := [], store := config, result := Except.error msgModel,
              modelLoadAttempted := true, decodeAttempted := false,
              handleReleasedInCallback := false, handleReleasedAtEnd := false,
              params := params }
          else if env.stateInit = false then
            { events := [emit_err msgState], store := config,
              result := Except.error msgState,
              modelLoadAttempted := true, decodeAttempted := false,
              handleReleasedInCallback := false, handleReleasedAtEnd := false,
              params := params }
          else if env.startEmit = false then
            { events := [], store := config, result := Except.error msgEmit,
              modelLoadAttempted := true, decodeAttempted := false,
              handleReleasedInCallback := false, handleReleasedAtEnd := false,
              params := params }
          else
            let cb := runCallbacks env.engineSegments config
            if env.decodeOk then
              { events := startPayload :: cb.1, store := cb.2.1,
                result := Except.ok (),
                modelLoadAttempted := true, decodeAttempted := true,
                handleReleasedInCallback := cb.2.2,
                handleReleasedAtEnd := false, params := params }
            else
              { events := startPayload :: cb.1 ++ [emit_err msgDecode],
                store := cb.2.1, result := Except.error msgDecode,
                modelLoadAttempted := true, decodeAttempted := true,
                handleReleasedInCallback := cb.2.2,
                handleReleasedAtEnd := false, params := params }

/-- Boolean test for an `error`-status event. -/
def Status.isError : Status → Bool
  | Status.error => true
  | _ => false

/-- Boolean test for a `data`-status event. -/
def Status.isData : Status → Bool
  | Status.data => true
  | _ => false

/-- Boolean test for a `start`-status event. -/
def Status.isStart : Status → Bool
  | Status.start => true
  | _ => false

/-- Number of `error` events in an event list. -/
def errCount (evs : List WhisperPayload) : Nat :=
  evs.countP (fun e => e.status.isError)

/-- Number of `data` events in an event list. -/
def dataCount (evs : List WhisperPayload) : Nat :=
  evs.countP (fun e => e.status.isData)

/-- Number of `start` events in an event list. -/
def startCount (evs : List WhisperPayload) : Nat :=
  evs.countP (fun e => e.status.isStart)

/-- A concrete store used by closed example theorems. -/
def store0 : Store :=
  { path_wav := "a.wav", path_model := "model.bin", lang := none,
    translate := false, ms_offset := 0, ms_duration := 0, segments := [] }

/-- All-success environment with the engine producing one invalid-UTF-8
segment. -/
def envC1 : Env :=
  { store := store0, poisoned := false, wavOpen := true, samples := [],
    modelLoad := true, stateInit := true, startEmit := true,
    engineSegments := [⟨TextPayload.invalid, 0, 50⟩], decodeOk := true }

/-- Environment whose second raw sample read fails. -/
def envSampleFail : Env :=
  { store := store0, poisoned := false, wavOpen := true,
    samples := [Except.ok 3, Except.error ()],
    modelLoad := true, stateInit := true, startEmit := true,
    engineSegments := [], decodeOk := true }

/-- Environment whose model load fails. -/
def envModelFail : Env :=
  { store := store0, poisoned := false, wavOpen := true, samples := [],
    modelLoad := false, stateInit := true, startEmit := true,
    engineSegments := [], decodeOk := true }

/-- Environment whose WAV open fails. -/
def envAudioFail : Env :=
  { store := store0, poisoned := false, wavOpen := false, samples := [],
    modelLoad := true, stateInit := true, startEmit := true,
    engineSegments := [], decodeOk := true }

/-- Environment whose Store lock is poisoned. -/
def envPoisoned : Env :=
  { store := store0, poisoned := true, wavOpen := true, samples := [],
    modelLoad := true, stateInit := true, startEmit := true,
    engineSegments := [], decodeOk := true }

/-- Environment whose start emission fails. -/
def envStartFail : Env :=
  { store := store0, poisoned := false, wavOpen := true, samples := [],
    modelLoad := true, stateInit := true, startEmit := false,
    engineSegments := [], decodeOk := true }

/-- C4 counterexample: the valid 16-bit sample `-32768` (`i16::MIN`) decodes
to `-32768 / 32767`, which is strictly below `-1`, so not every decoded
sample lies in the closed range `[-1, 1]`. -/
theorem C4_counterexample :
    decodeSample (-32768) = -32768 / 32767 ∧ decodeSample (-32768) < -1 := by
  constructor
  · norm_num [decodeSample]
  · norm_num [decodeSample]

/-- C4 (amended): for every valid 16-bit signed PCM sample `s`, the decoded
sample equals `s` divided by the maximum representable positive 16-bit value
`32767`, and lies in the closed range `[-32768/32767, 1]` (so all samples
except possibly `-32768` lie in `[-1, 1]`). -/
theorem C4_sample_normalization (s : Int) (h1 : -32768 ≤ s) (h2 : s ≤ 32767) :
    decodeSample s = (s : ℚ) / 32767 ∧
    -32768 / 32767 ≤ decodeSample s ∧ decodeSample s ≤ 1 := by
  refine ⟨rfl, ?_, ?_⟩
  · rw [decodeSample, div_le_div_iff_of_pos_right (by norm_num : (0:ℚ) < 32767)]
    exact_mod_cast h1
  · rw [decodeSample, div_le_one (by norm_num : (0:ℚ) < 32767)]
    exact_mod_cast h2

/-- C4 witness: the sample `0` is valid and decodes inside the amended range. -/
theorem C4_sample_normalization_witness :
    decodeSample 0 = (0 : ℚ) / 32767 ∧
    -32768 / 32767 ≤ decodeSample 0 ∧ decodeSample 0 ≤ 1 :=
  C4_sample_normalization 0 (by norm_num) (by norm_num)

/-- C2 counterexample: a callback invocation whose text payload is null emits
no event at all (the source returns before `emit_err`), so it does not emit
exactly one error event as claimed; the Store is unchanged. -/
theorem C2_counterexample :
    (whisper_callback ⟨TextPayload.null, 0, 0⟩ store0 false).events = [] ∧
    ¬ errCount (whisper_callback ⟨TextPayload.null, 0, 0⟩ store0 false).events = 1 ∧
    (whisper_callback ⟨TextPayload.null, 0, 0⟩ store0 false).store = store0 := by
  refine ⟨rfl, ?_, rfl⟩
  decide

/-- C2 (amended): a callback invocation whose text payload is non-null but
not valid UTF-8 emits exactly one error event, no data event, and leaves the
Store unchanged; a callback invocation whose text payload is null emits no
event at all and leaves the Store unchanged. -/
theorem C2_segment_text_failure (seg : SegmentData) (store : Store) (p : Bool) :
    (seg.text = TextPayload.invalid →
      errCount (whisper_callback seg store p).events = 1 ∧
      dataCount (whisper_callback seg store p).events = 0 ∧
      (whisper_callback seg store p).store = store) ∧
    (seg.text = TextPayload.null →
      (whisper_callback seg store p).events = [] ∧
      (whisper_callback seg store p).store = store) := by
  constructor
  · intro h
    simp [whisper_callback, h, errCount, dataCount, emit_err,
      Status.isError, Status.isData]
  · intro h
    simp [whisper_callback, h]

/-- C2 witness: a concrete invalid-UTF-8 segment produces one error event,
zero data events, and leaves the Store unchanged. -/
theorem C2_segment_text_failure_witness :
    errCount (whisper_callback ⟨TextPayload.invalid, 1, 2⟩ store0 true).events = 1 ∧
    dataCount (whisper_callback ⟨TextPayload.invalid, 1, 2⟩ store0 true).events = 0 ∧
    (whisper_callback ⟨TextPayload.invalid, 1, 2⟩ store0 true).store = store0 :=
  (C2_segment_text_failure ⟨TextPayload.invalid, 1, 2⟩ store0 true).1 rfl

/-- C1: the code releases the boxed event-sink handle inside the callback —
the invalid-UTF-8 branch reconstructs the Box from the raw user-data pointer
and drops it on return — and no path of `run` releases the handle at
end-of-run (the final conjunct quantifies over every environment and every
argument list). -/
theorem C1_handle_release :
    (whisper_callback ⟨TextPayload.invalid, 0, 50⟩ store0 false).releasedHandle = true ∧
    (run "a.wav" "model.bin" "ja" false 0 0 envC1).handleReleasedInCallback = true ∧
    (∀ (pw pm lg : String) (tr : Bool) (off dur : Int) (env : Env),
      (run pw pm lg tr off dur env).handleReleasedAtEnd = false) := by
  refine ⟨rfl, rfl, ?_⟩
  intro pw pm lg tr off dur env
  rw [run]
  by_cases hp : env.poisoned <;> simp [hp]
  by_cases hw : env.wavOpen = false <;> simp [hw]
  cases hd : decodeSamples env.samples <;> simp
  by_cases hm : env.modelLoad = false <;> simp [hm]
  by_cases hs : env.stateInit = false <;> simp [hs]
  by_cases he : env.startEmit = false <;> simp [he]
  by_cases hk : env.decodeOk <;> simp [hk]

/-- C5: every Segment appended by a callback invocation with valid text has
`start_ms = t0 * 10` and `end_ms = t1 * 10` (so `end_ms ≥ start_ms` whenever
`t1 ≥ t0`), and the engine timestamps (0,50), (50,120), (120,200) yield the
Segments (0,500), (500,1200), (1200,2000) in that order. -/
theorem C5_timestamp_scaling :
    (∀ (t0 t1 : Int) (s : String) (store : Store),
      (whisper_callback ⟨TextPayload.valid s, t0, t1⟩ store false).store.segments =
        store.segments ++ [⟨t0 * 10, t1 * 10, s⟩] ∧
      (t0 ≤ t1 → t0 * 10 ≤ t1 * 10)) ∧
    (runCallbacks
        [⟨TextPayload.valid "a", 0, 50⟩, ⟨TextPayload.valid "b", 50, 120⟩,
         ⟨TextPayload.valid "c", 120, 200⟩] store0).2.1.segments =
      [⟨0, 500, "a"⟩, ⟨500, 1200, "b"⟩, ⟨1200, 2000, "c"⟩] := by
  constructor
  · intro t0 t1 s store
    constructor
    · simp [whisper_callback, Store.push_data]
    · intro h
      omega
  · rfl

/-- C5 witness: the general part applied at timestamps (0, 50), with the
hypothesis `0 ≤ 50` discharged. -/
theorem C5_timestamp_scaling_witness :
    (whisper_callback ⟨TextPayload.valid "a", 0, 50⟩ store0 false).store.segments =
      store0.segments ++ [⟨0 * 10, 50 * 10, "a"⟩] ∧ (0 : Int) * 10 ≤ 50 * 10 :=
  ⟨(C5_timestamp_scaling.1 0 50 "a" store0).1,
   (C5_timestamp_scaling.1 0 50 "a" store0).2 (by norm_num)⟩

/-- C8 counterexample: a callback invocation with valid text that acquires a
poisoned Store lock panics (the source calls `STORE.lock().unwrap()`); no
StoreUnavailable failure is surfaced — no event is emitted and nothing is
stored. -/
theorem C8_counterexample :
    (whisper_callback ⟨TextPayload.valid "a", 0, 10⟩ store0 true).panicked = true ∧
    (whisper_callback ⟨TextPayload.valid "a", 0, 10⟩ store0 true).events = [] ∧
    (whisper_callback ⟨TextPayload.valid "a", 0, 10⟩ store0 true).store = store0 :=
  ⟨rfl, rfl, rfl⟩

/-- C8 (amended): in the orchestration entry point a poisoned Store lock is
returned as the distinct poison failure `"Mutex is poisoned"` before any
audio, model, or engine work, with no event emitted; in the callback a
poisoned lock causes a panic via `unwrap` (for valid-text payloads, the only
branch that locks the Store), not a StoreUnavailable error event. -/
theorem C8_poisoned_lock (pw pm lg : String) (tr : Bool) (off dur : Int)
    (env : Env) (hp : env.poisoned = true) :
    (run pw pm lg tr off dur env).result = Except.error msgPoison ∧
    (run pw pm lg tr off dur env).events = [] ∧
    (run pw pm lg tr off dur env).modelLoadAttempted = false ∧
    (run pw pm lg tr off dur env).decodeAttempted = false ∧
    (∀ (seg : SegmentData) (store : Store) (s : String),
      seg.text = TextPayload.valid s →
        (whisper_callback seg store true).panicked = true ∧
        (whisper_callback seg store true).events = []) := by
  refine ⟨?_, ?_, ?_, ?_, ?_⟩
  · simp [run, hp]
  · simp [run, hp]
  · simp [run, hp]
  · simp [run, hp]
  · intro seg store s hs
    simp [whisper_callback, hs]

/-- C8 witness: the amended statement applied to a poisoned environment and a
concrete valid-text callback invocation. -/
theorem C8_poisoned_lock_witness :
    (run "a" "b" "c" false 0 0 envPoisoned).result = Except.error msgPoison ∧
    (whisper_callback ⟨TextPayload.valid "x", 0, 1⟩ store0 true).panicked = true :=
  ⟨(C8_poisoned_lock "a" "b" "c" false 0 0 envPoisoned rfl).1,
   ((C8_poisoned_lock "a" "b" "c" false 0 0 envPoisoned rfl).2.2.2.2
      ⟨TextPayload.valid "x", 0, 1⟩ store0 "x" rfl).1⟩

/-- C3 counterexample: a run whose sample decoding fails returns the failure
`msgSamples` but emits no event at all (the source uses `map_err(...)?` with
no `emit_err`); likewise a run whose model load fails returns `msgModel`
with no event.  So not every failing run emits an `error` event. -/
theorem C3_counterexample :
    (run "a" "b" "c" false 0 0 envSampleFail).result = Except.error msgSamples ∧
    (run "a" "b" "c" false 0 0 envSampleFail).events = [] ∧
    (run "a" "b" "c" false 0 0 envModelFail).result = Except.error msgModel ∧
    (run "a" "b" "c" false 0 0 envModelFail).events = [] :=
  ⟨rfl, rfl, rfl, rfl⟩

/-- C3 (amended): runs that fail on audio open, state init, or engine decode
emit an `error` event to the host; runs that fail on sample decoding or
model loading return the typed failure without emitting any event. -/
theorem C3_error_event_on_failure (pw pm lg : String) (tr : Bool)
    (off dur : Int) (env : Env) (hp : env.poisoned = false) :
    (env.wavOpen = false →
      (run pw pm lg tr off dur env).events = [emit_err msgAudioOpen] ∧
      (run pw pm lg tr off dur env).result = Except.error msgAudioOpen) ∧
    (env.wavOpen = true → decodeSamples env.samples = Except.error () →
      (run pw pm lg tr off dur env).events = [] ∧
      (run pw pm lg tr off dur env).result = Except.error msgSamples) ∧
    (∀ l, env.wavOpen = true → decodeSamples env.samples = Except.ok l →
      env.modelLoad = false →
      (run pw pm lg tr off dur env).events = [] ∧
      (run pw pm lg tr off dur env).result = Except.error msgModel) ∧
    (∀ l, env.wavOpen = true → decodeSamples env.samples = Except.ok l →
      env.modelLoad = true → env.stateInit = false →
      (run pw pm lg tr off dur env).events = [emit_err msgState] ∧
      (run pw pm lg tr off dur env).result = Except.error msgState) ∧
    (∀ l, env.wavOpen = true → decodeSamples env.samples = Except.ok l →
      env.modelLoad = true → env.stateInit = true → env.startEmit = true →
      env.decodeOk = false →
      emit_err msgDecode ∈ (run pw pm lg tr off dur env).events ∧
      (run pw pm lg tr off dur env).result = Except.error msgDecode) := by
  refine ⟨?_, ?_, ?_, ?_, ?_⟩
  · intro hw
    simp [run, hp, hw]
  · intro hw hd
    simp [run, hp, hw, hd]
  · intro l hw hd hm
    simp [run, hp, hw, hd, hm]
  · intro l hw hd hm hs
    simp [run, hp, hw, hd, hm, hs]
  · intro l hw hd hm hs he hk
    simp [run, hp, hw, hd, hm, hs, he, hk]

/-- C3 witness: the audio-open conjunct applied to a concrete environment in
which the WAV file cannot be opened. -/
theorem C3_error_event_on_failure_witness :
    (run "a" "b" "c" false 0 0 envAudioFail).events = [emit_err msgAudioOpen] ∧
    (run "a" "b" "c" false 0 0 envAudioFail).result = Except.error msgAudioOpen :=
  (C3_error_event_on_failure "a" "b" "c" false 0 0 envAudioFail rfl).1 rfl

/-- C7: when the WAV file cannot be opened (and the Store lock is healthy, so
the open is reached), the run fails with the audio-open error, emits exactly
that error event, and neither the model load nor the engine decode is ever
attempted. -/
theorem C7_audio_open_failure (pw pm lg : String) (tr : Bool)
    (off dur : Int) (env : Env) (hp : env.poisoned = false)
    (hw : env.wavOpen = false) :
    (run pw pm lg tr off dur env).result = Except.error msgAudioOpen ∧
    (run pw pm lg tr off dur env).events = [emit_err msgAudioOpen] ∧
    (run pw pm lg tr off dur env).modelLoadAttempted = false ∧
    (run pw pm lg tr off dur env).decodeAttempted = false := by
  simp [run, hp, hw]

/-- C7 witness: the theorem applied to a concrete environment whose WAV open
fails. -/
theorem C7_audio_open_failure_witness :
    (run "a" "b" "c" false 0 0 envAudioFail).result = Except.error msgAudioOpen ∧
    (run "a" "b" "c" false 0 0 envAudioFail).events = [emit_err msgAudioOpen] ∧
    (run "a" "b" "c" false 0 0 envAudioFail).modelLoadAttempted = false ∧
    (run "a" "b" "c" false 0 0 envAudioFail).decodeAttempted = false :=
  C7_audio_open_failure "a" "b" "c" false 0 0 envAudioFail rfl rfl

/-- Any failed raw sample read makes the whole collection fail: `collect`
into `Result` returns the first error and never a partial buffer. -/
theorem decodeSamples_error_of_mem (samples : List (Except Unit Int))
    (h : Except.error () ∈ samples) : decodeSamples samples = Except.error () := by
  induction samples with
  | nil => cases h
  | cons x rest ih =>
      cases x with
      | error e => cases e; rfl
      | ok s =>
          have hr : Except.error () ∈ rest := by
            cases h with
            | tail _ hmem => exact hmem
          rw [decodeSamples, ih hr]
          rfl

/-- C9: if any raw sample read fails, the whole sample collection fails (no
partial buffer exists), and the run — with the WAV open succeeding so the
loop is reached — fails with the sample-decode error before the model load
or the engine decode is attempted. -/
theorem C9_samples_all_or_nothing (pw pm lg : String) (tr : Bool)
    (off dur : Int) (env : Env) (hp : env.poisoned = false)
    (hw : env.wavOpen = true) (hs : Except.error () ∈ env.samples) :
    decodeSamples env.samples = Except.error () ∧
    (run pw pm lg tr off dur env).result = Except.error msgSamples ∧
    (run pw pm lg tr off dur env).modelLoadAttempted = false ∧
    (run pw pm lg tr off dur env).decodeAttempted = false := by
  have hd := decodeSamples_error_of_mem env.samples hs
  refine ⟨hd, ?_, ?_, ?_⟩ <;> simp [run, hp, hw, hd]

/-- C9 witness: the theorem applied to a concrete environment whose second
raw sample read fails. -/
theorem C9_samples_all_or_nothing_witness :
    decodeSamples envSampleFail.samples = Except.error () ∧
    (run "a" "b" "c" false 0 0 envSampleFail).result = Except.error msgSamples ∧
    (run "a" "b" "c" false 0 0 envSampleFail).modelLoadAttempted = false ∧
    (run "a" "b" "c" false 0 0 envSampleFail).decodeAttempted = false :=
  C9_samples_all_or_nothing "a" "b" "c" false 0 0 envSampleFail rfl rfl
    (by simp [envSampleFail])

/-- C10: the six explicit arguments of `run` are never read — the source body
takes every run parameter from the locked Store — so two invocations that
differ only in those arguments but share the same environment (Store
contents and collaborator outcomes) produce identical results: same events,
same Store, same decode parameters, same returned value. -/
theorem C10_explicit_args_unused (pw1 pm1 lg1 : String) (tr1 : Bool)
    (off1 dur1 : Int) (pw2 pm2 lg2 : String) (tr2 : Bool)
    (off2 dur2 : Int) (env : Env) :
    run pw1 pm1 lg1 tr1 off1 dur1 env = run pw2 pm2 lg2 tr2 off2 dur2 env :=
  rfl

/-- Callback invocations never emit a `start` event: each invocation emits
nothing, one `error` event, or one `data` event. -/
theorem runCallbacks_no_start (segs : List SegmentData) (store : Store) :
    startCount (runCallbacks segs store).1 = 0 := by
  induction segs generalizing store with
  | nil => rfl
  | cons seg rest ih =>
      have hc : List.countP (fun e => e.status.isStart)
          (whisper_callback seg store false).events = 0 := by
        cases h : seg.text <;>
          simp [whisper_callback, h, emit_err, Store.push_data, Status.isStart]
      have ih' : ∀ st : Store, List.countP (fun e => e.status.isStart)
          (runCallbacks rest st).1 = 0 := fun st => ih st
      simp [runCallbacks, startCount, List.countP_append, hc, ih']

/-- Event-trace shapes of `run`: either no event was delivered and the run
failed before the decode call, or a single error event was delivered and the
run failed before the decode call, or the start emission succeeded and the
trace begins with the `start` event followed by start-free events. -/
theorem run_events_cases (pw pm lg : String) (tr : Bool) (off dur : Int)
    (env : Env) :
    ((run pw pm lg tr off dur env).events = [] ∧
      (run pw pm lg tr off dur env).decodeAttempted = false ∧
      ∃ m, (run pw pm lg tr off dur env).result = Except.error m) ∨
    ((∃ m, (run pw pm lg tr off dur env).events = [emit_err m]) ∧
      (run pw pm lg tr off dur env).decodeAttempted = false ∧
      ∃ m, (run pw pm lg tr off dur env).result = Except.error m) ∨
    (env.startEmit = true ∧
      ∃ rest, (run pw pm lg tr off dur env).events = startPayload :: rest ∧
        startCount rest = 0) := by
  by_cases hp : env.poisoned
  · exact Or.inl ⟨by simp [run, hp], by simp [run, hp], msgPoison, by simp [run, hp]⟩
  · by_cases hw : env.wavOpen = false
    · exact Or.inr (Or.inl ⟨⟨msgAudioOpen, by simp [run, hp, hw]⟩,
        by simp [run, hp, hw], msgAudioOpen, by simp [run, hp, hw]⟩)
    · cases hd : decodeSamples env.samples with
      | error e =>
          exact Or.inl ⟨by simp [run, hp, hw, hd], by simp [run, hp, hw, hd],
            msgSamples, by simp [run, hp, hw, hd]⟩
      | ok l =>
          by_cases hm : env.modelLoad = false
          · exact Or.inl ⟨by simp [run, hp, hw, hd, hm], by simp [run, hp, hw, hd, hm],
              msgModel, by simp [run, hp, hw, hd, hm]⟩
          · by_cases hs : env.stateInit = false
            · exact Or.inr (Or.inl ⟨⟨msgState, by simp [run, hp, hw, hd, hm, hs]⟩,
                by simp [run, hp, hw, hd, hm, hs], msgState,
                by simp [run, hp, hw, hd, hm, hs]⟩)
            · by_cases he : env.startEmit = false
              · exact Or.inl ⟨by simp [run, hp, hw, hd, hm, hs, he],
                  by simp [run, hp, hw, hd, hm, hs, he], msgEmit,
                  by simp [run, hp, hw, hd, hm, hs, he]⟩
              · have he' : env.startEmit = true := by
                  revert he
                  cases env.startEmit <;> simp
                by_cases hk : env.decodeOk
                · exact Or.inr (Or.inr ⟨he',
                    (runCallbacks env.engineSegments env.store).1,
                    by simp [run, hp, hw, hd, hm, hs, he, hk],
                    runCallbacks_no_start env.engineSegments env.store⟩)
                · refine Or.inr (Or.inr ⟨he',
                    (runCallbacks env.engineSegments env.store).1 ++ [emit_err msgDecode],
                    by simp [run, hp, hw, hd, hm, hs, he, hk], ?_⟩)
                  have h0 := runCallbacks_no_start env.engineSegments env.store
                  simp [startCount, List.countP_append, emit_err, Status.isStart] at h0 ⊢
                  exact h0

/-- All-success environment with one valid segment, used by the C6 witness. -/
def envOneSeg : Env :=
  { store := store0, poisoned := false, wavOpen := true, samples := [],
    modelLoad := true, stateInit := true, startEmit := true,
    engineSegments := [⟨TextPayload.valid "hello", 0, 50⟩], decodeOk := true }

/-- C6: in every run the `start` event is emitted at most once, every `data`
event in the trace is preceded by a `start` event, and a failed `start`
emission aborts the run with a failure before the engine decode call is
invoked. -/
theorem C6_start_once_before_data (pw pm lg : String) (tr : Bool)
    (off dur : Int) (env : Env) :
    startCount (run pw pm lg tr off dur env).events ≤ 1 ∧
    (∀ (pre : List WhisperPayload) (e : WhisperPayload)
        (post : List WhisperPayload),
      (run pw pm lg tr off dur env).events = pre ++ e :: post →
      e.status = Status.data →
      ∃ e0 ∈ pre, e0.status = Status.start) ∧
    (env.startEmit = false →
      (run pw pm lg tr off dur env).decodeAttempted = false ∧
      (run pw pm lg tr off dur env).result ≠ Except.ok ()) := by
  rcases run_events_cases pw pm lg tr off dur env with
    ⟨hev, hdec, m, hres⟩ | ⟨⟨m, hev⟩, hdec, m', hres⟩ | ⟨hse, rest, hev, hrest⟩
  · refine ⟨by simp [hev, startCount], ?_, ?_⟩
    · intro pre e post h _
      rw [hev] at h
      exact absurd h.symm (by simp)
    · intro _
      refine ⟨hdec, ?_⟩
      rw [hres]
      simp
  · refine ⟨by simp [hev, startCount, emit_err, Status.isStart], ?_, ?_⟩
    · intro pre e post h hd
      rw [hev] at h
      cases pre with
      | nil =>
          simp only [List.nil_append] at h
          injection h with h1 _
          rw [← h1] at hd
          simp [emit_err] at hd
      | cons a pre' =>
          simp only [List.cons_append] at h
          injection h with _ h2
          exact absurd h2.symm (by simp)
    · intro _
      refine ⟨hdec, ?_⟩
      rw [hres]
      simp
  · refine ⟨?_, ?_, ?_⟩
    · have hr : List.countP (fun e => e.status.isStart) rest = 0 := hrest
      rw [hev]
      unfold startCount
      rw [List.countP_cons, hr]
      simp [startPayload, Status.isStart]
    · intro pre e post h hd
      rw [hev] at h
      cases pre with
      | nil =>
          simp only [List.nil_append] at h
          injection h with h1 _
          rw [← h1] at hd
          simp [startPayload] at hd
      | cons a pre' =>
          simp only [List.cons_append] at h
          injection h with h1 _
          refine ⟨a, List.mem_cons_self a pre', ?_⟩
          rw [← h1]
          rfl
    · intro hse'
      simp [hse] at hse'

/-- C6 witness: at-most-one start and the start-before-data conclusion at a
concrete successful one-segment run, and the abort conclusion at a concrete
run whose start emission fails. -/
theorem C6_start_once_before_data_witness :
    startCount (run "a" "b" "c" false 0 0 envOneSeg).events ≤ 1 ∧
    (∃ e0 ∈ [startPayload], e0.status = Status.start) ∧
    (run "a" "b" "c" false 0 0 envStartFail).decodeAttempted = false ∧
    (run "a" "b" "c" false 0 0 envStartFail).result ≠ Except.ok () :=
  ⟨(C6_start_once_before_data "a" "b" "c" false 0 0 envOneSeg).1,
   (C6_start_once_before_data "a" "b" "c" false 0 0 envOneSeg).2.1
     [startPayload] ⟨Status.data, "hello"⟩ [] rfl rfl,
   (C6_start_once_before_data "a" "b" "c" false 0 0 envStartFail).2.2 rfl⟩
